import Mathlib

/-!
Verification of `agent_runner.py` (Strands GitHub Agent Runner).

The source file builds a fixed tool list, a Bedrock model configuration,
and an agent, then runs the agent on a task read from the environment.
We embed the script shallowly: environment reads become an explicit `Env`
record, `print` calls become a returned list of strings, Python exceptions
become `Except`, and the external agent (the strands `Agent` collaborator)
becomes a function parameter.  The Python functions `_get_all_tools`,
`run_agent` and `main` are translated definition by definition.
-/

namespace AgentRunner

/-- The environment variables the script reads.  `none` models an unset
variable; `some s` a variable set to `s` (possibly the empty string). -/
structure Env where
  input_task_prompt : Option String
  input_system_prompt : Option String
deriving DecidableEq

/-- Python `os.getenv(name, default)`: the value when set, else the default. -/
def getenv (v : Option String) (default : String) : String :=
  v.getD default

/-- Module constant `STRANDS_MODEL_ID`. -/
def STRANDS_MODEL_ID : String := "anthropic.claude-opus-4-20250514-v1:0"

/-- Module constant `STRANDS_MAX_TOKENS`. -/
def STRANDS_MAX_TOKENS : Nat := 64000

/-- Module constant `STRANDS_BUDGET_TOKENS`. -/
def STRANDS_BUDGET_TOKENS : Nat := 8000

/-- Module constant `STRANDS_REGION`. -/
def STRANDS_REGION : String := "ap-northeast-1"

/-- Module constant `DEFAULT_SYSTEM_PROMPT`. -/
def DEFAULT_SYSTEM_PROMPT : String := "You are an autonomous GitHub agent."

/-- The 17 tools imported at module level.  Each is an external collaborator;
only its identity matters here, so each is one constructor. -/
inductive Tool where
  | str_replace_based_edit_tool
  | shell
  | http_request
  | create_issue
  | get_issue
  | update_issue
  | list_issues
  | add_issue_comment
  | get_issue_comments
  | create_pull_request
  | get_pull_request
  | update_pull_request
  | list_pull_requests
  | get_pr_review_and_comments
  | reply_to_review_comment
  | notebook
  | handoff_to_user
deriving DecidableEq

/-- Python `_get_all_tools()`: returns the hardcoded tool list. -/
def _get_all_tools : List Tool :=
  [ Tool.str_replace_based_edit_tool,
    Tool.shell,
    Tool.http_request,
    Tool.create_issue,
    Tool.get_issue,
    Tool.update_issue,
    Tool.list_issues,
    Tool.add_issue_comment,
    Tool.get_issue_comments,
    Tool.create_pull_request,
    Tool.get_pull_request,
    Tool.update_pull_request,
    Tool.list_pull_requests,
    Tool.get_pr_review_and_comments,
    Tool.reply_to_review_comment,
    Tool.notebook,
    Tool.handoff_to_user ]

/-- The `retries` entry of the botocore `Config` built in `run_agent`. -/
structure RetryConfig where
  max_attempts : Nat
  mode : String
deriving DecidableEq

/-- The botocore `Config(read_timeout=..., connect_timeout=..., retries=...)`
built in `run_agent` (timeouts in seconds). -/
structure BotoConfig where
  read_timeout : Nat
  connect_timeout : Nat
  retries : RetryConfig
deriving DecidableEq

/-- The `thinking` entry of `additional_request_fields`. -/
structure ThinkingConfig where
  type : String
  budget_tokens : Nat
deriving DecidableEq

/-- The `additional_request_fields` dict built in `run_agent`. -/
structure AdditionalRequestFields where
  anthropic_beta : List String
  thinking : ThinkingConfig
deriving DecidableEq

/-- The `BedrockModel(...)` constructed in `run_agent`. -/
structure BedrockModelConfig where
  model_id : String
  max_tokens : Nat
  region_name : String
  boto_client_config : BotoConfig
  additional_request_fields : AdditionalRequestFields
deriving DecidableEq

/-- The `Agent(model=..., system_prompt=..., tools=...)` constructed in
`run_agent`: the three construction arguments. -/
structure AgentConstruction where
  model : BedrockModelConfig
  system_prompt : String
  tools : List Tool
deriving DecidableEq

/-- The construction part of `run_agent`: the tool list, the
`additional_request_fields`, the `BedrockModel` and the `Agent`, exactly as
built in the source (lines 66-96 of `agent_runner.py`). -/
def build_agent (env : Env) : AgentConstruction :=
  { model :=
      { model_id := STRANDS_MODEL_ID
        max_tokens := STRANDS_MAX_TOKENS
        region_name := STRANDS_REGION
        boto_client_config :=
          { read_timeout := 900
            connect_timeout := 900
            retries := { max_attempts := 3, mode := "adaptive" } }
        additional_request_fields :=
          { anthropic_beta := ["interleaved-thinking-2025-05-14"]
            thinking := { type := "enabled", budget_tokens := STRANDS_BUDGET_TOKENS } } }
    system_prompt := getenv env.input_system_prompt DEFAULT_SYSTEM_PROMPT
    tools := _get_all_tools }

/-- What a run of `run_agent` or `main` makes observable: the lines printed,
the queries with which the external agent was invoked, and the returned or
raised value (`Except.error` models an escaping Python exception). -/
structure RunOut (ρ : Type) where
  prints : List String
  agent_queries : List String
  result : Except String ρ

/-- Python `run_agent(query)`.  The external agent collaborator is the
parameter `agentRun` (strands `Agent.__call__`), taking the constructed
agent and the query and either returning a result or raising.  On success
it prints the completion marker and returns the result; on an exception it
prints the error marker and re-raises the same exception. -/
def run_agent (agentRun : AgentConstruction → String → Except String String)
    (env : Env) (query : String) : RunOut String :=
  let agent := build_agent env
  let runningLine := "🤖 Running agent with query: " ++ query.take 100 ++ "..."
  match agentRun agent query with
  | Except.ok result =>
      { prints := [runningLine, "✅ Agent completed successfully"]
        agent_queries := [query]
        result := Except.ok result }
  | Except.error e =>
      { prints := [runningLine, "❌ Error running agent: " ++ e]
        agent_queries := [query]
        result := Except.error e }

/-- The separator line `"=" * 60` printed by `main`. -/
def sep_line : String := String.mk (List.replicate 60 '=')

/-- Python `main()`.  Reads `INPUT_TASK_PROMPT` (default `""`); an empty
task prints the no-task diagnostic and returns `None`; otherwise it prints
the banner and calls `run_agent(task_prompt)`, discarding its return value
(`main` falls off its end, i.e. returns `None`, modelled `none`). -/
def main (agentRun : AgentConstruction → String → Except String String)
    (env : Env) : RunOut (Option String) :=
  let task_prompt := getenv env.input_task_prompt ""
  if task_prompt = "" then
    { prints := ["❌ No task prompt provided"]
      agent_queries := []
      result := Except.ok none }
  else
    let banner :=
      [ sep_line,
        "🚀 Starting Strands Agent",
        sep_line,
        "Model: " ++ STRANDS_MODEL_ID,
        "Region: " ++ STRANDS_REGION,
        "Task: " ++ task_prompt.take 200 ++ "...",
        sep_line ]
    let r := run_agent agentRun env task_prompt
    { prints := banner ++ r.prints
      agent_queries := r.agent_queries
      result := Except.map (fun _ => none) r.result }

/-- Modelled from the spec: a ToolCallRequest (§3) — the Agent Loop itself
lives in the external strands library and is absent from the source, so its
data model and algorithm are taken from the spec's words. -/
structure ToolCallRequest where
  call_id : Nat
  tool_name : String
  arguments : String
deriving DecidableEq

/-- Modelled from the spec: one Turn of the Conversation (§3). -/
inductive Turn where
  | userMessage (text : String)
  | assistantMessage (text : String) (calls : List ToolCallRequest)
  | toolResult (call_id : Nat) (output : String)
deriving DecidableEq

/-- Modelled from the spec: a ModelResponse (§4.2) — either a final answer
or a list of tool-call requests. -/
inductive ModelResponse where
  | finalAnswer (text : String)
  | toolCalls (calls : List ToolCallRequest)
deriving DecidableEq

/-- Modelled from the spec: §4.3 step 2c — for each request, synchronously
invoke the registry and collect one ToolResult per request, in request
order.  `invoke` is the Tool Registry collaborator (tool name and arguments
to serialized result text; errors are already folded into the text). -/
def tool_results_for (invoke : String → String → String)
    (calls : List ToolCallRequest) : List Turn :=
  calls.map (fun c => Turn.toolResult c.call_id (invoke c.tool_name c.arguments))

/-- Modelled from the spec: the Conversation after a tool-call turn — the
assistant message carrying the requests, then all ToolResults, appended in
request order (§4.3 step 2c). -/
def next_conversation (invoke : String → String → String) (conv : List Turn)
    (calls : List ToolCallRequest) : List Turn :=
  conv ++ [Turn.assistantMessage "" calls] ++ tool_results_for invoke calls

/-- Modelled from the spec: the Agent Loop (§4.3), fuelled since the spec
sets no iteration bound.  Returns the list of conversations with which the
model was called, in call order, and the final answer when one was reached
within the fuel. -/
def run_loop (model : List Turn → ModelResponse) (invoke : String → String → String) :
    Nat → List Turn → List (List Turn) × Option String
  | 0, _ => ([], none)
  | fuel + 1, conv =>
      match model conv with
      | ModelResponse.finalAnswer t => ([conv], some t)
      | ModelResponse.toolCalls calls =>
          let r := run_loop model invoke fuel (next_conversation invoke conv calls)
          (conv :: r.1, r.2)

/-- Relation between consecutive model-call conversations: whenever the
model answered `c` with tool calls, the next model call is issued on exactly
`c` extended by the assistant message and one ToolResult per request, in
request order. -/
def loop_step_rel (model : List Turn → ModelResponse) (invoke : String → String → String)
    (c c' : List Turn) : Prop :=
  ∀ calls, model c = ModelResponse.toolCalls calls →
    c' = next_conversation invoke c calls

/-- Modelled from the spec: the outcome of one transport attempt (§4.2, §7)
— the model transport (botocore) is an external collaborator. -/
inductive Attempt where
  | transientFailure
  | fatalFailure (msg : String)
  | success (resp : String)
deriving DecidableEq

/-- Modelled from the spec: the transport retry loop — attempt after
attempt while transient failures occur, at most `remaining` attempts in
total; fatal failures and successes end the call at once.  Returns the
number of attempts made and the outcome. -/
def run_attempts (outcome : Nat → Attempt) : Nat → Nat → Nat × Except String String
  | _, 0 => (0, Except.error "transient failures exhausted")
  | start, remaining + 1 =>
      match outcome start with
      | Attempt.success r => (1, Except.ok r)
      | Attempt.fatalFailure m => (1, Except.error m)
      | Attempt.transientFailure =>
          let r := run_attempts outcome (start + 1) remaining
          (r.1 + 1, r.2)

/-- Modelled from the spec: one model call under a retry configuration —
up to `cfg.max_attempts` attempts (§4.2, §8). -/
def model_call (cfg : RetryConfig) (outcome : Nat → Attempt) :
    Nat × Except String String :=
  run_attempts outcome 0 cfg.max_attempts

/-- Helper: the trace of a loop run is empty (fuel ran out at once) or
starts with the conversation the run began from. -/
theorem run_loop_head (model : List Turn → ModelResponse)
    (invoke : String → String → String) (fuel : Nat) (conv : List Turn) :
    (run_loop model invoke fuel conv).1 = [] ∨
      (run_loop model invoke fuel conv).1.head? = some conv := by
  cases fuel with
  | zero => exact Or.inl rfl
  | succ n =>
      cases h : model conv with
      | finalAnswer t => right; simp [run_loop, h]
      | toolCalls calls => right; simp [run_loop, h]

/-- Helper: consecutive model-call conversations in a loop run are related
by `loop_step_rel`. -/
theorem run_loop_chain (model : List Turn → ModelResponse)
    (invoke : String → String → String) :
    ∀ fuel conv,
      List.Chain' (loop_step_rel model invoke) (run_loop model invoke fuel conv).1 := by
  intro fuel
  induction fuel with
  | zero => intro conv; simp [run_loop]
  | succ n ih =>
      intro conv
      cases h : model conv with
      | finalAnswer t => simp [run_loop, h]
      | toolCalls calls =>
          have hgoal :
              (run_loop model invoke (n + 1) conv).1 =
                conv :: (run_loop model invoke n (next_conversation invoke conv calls)).1 := by
            simp [run_loop, h]
          rw [hgoal, List.chain'_cons']
          refine ⟨?_, ih (next_conversation invoke conv calls)⟩
          intro b hb
          rcases run_loop_head model invoke n (next_conversation invoke conv calls) with
            h0 | h0
          · rw [h0] at hb; simp at hb
          · rw [h0] at hb
            simp at hb
            subst hb
            intro calls' hc
            rw [h] at hc
            cases hc
            rfl

/-- Helper: the retry loop never makes more attempts than allowed. -/
theorem run_attempts_count_le (outcome : Nat → Attempt) :
    ∀ remaining start, (run_attempts outcome start remaining).1 ≤ remaining := by
  intro remaining
  induction remaining with
  | zero => intro start; exact Nat.le_refl 0
  | succ n ih =>
      intro start
      cases h : outcome start with
      | success r => simp [run_attempts, h]
      | fatalFailure m => simp [run_attempts, h]
      | transientFailure =>
          simp [run_attempts, h]
          exact ih (start + 1)

/-- Helper: when every attempt fails transiently, the retry loop exhausts
its attempts and reports the exhaustion error. -/
theorem run_attempts_all_transient (outcome : Nat → Attempt)
    (h : ∀ i, outcome i = Attempt.transientFailure) :
    ∀ remaining start,
      (run_attempts outcome start remaining).2 =
        Except.error "transient failures exhausted" := by
  intro remaining
  induction remaining with
  | zero => intro start; rfl
  | succ n ih =>
      intro start
      simp [run_attempts, h start]
      exact ih (start + 1)

/-- C1: if INPUT_TASK_PROMPT is unset or set to the empty string, `main`
prints the "no task" diagnostic, never invokes the agent (hence no model
call is made), and returns normally. -/
theorem c1_empty_task_no_agent_run
    (agentRun : AgentConstruction → String → Except String String) (env : Env)
    (h : env.input_task_prompt = none ∨ env.input_task_prompt = some "") :
    (main agentRun env).prints = ["❌ No task prompt provided"] ∧
    (main agentRun env).agent_queries = [] ∧
    (main agentRun env).result = Except.ok none := by
  rcases h with h | h <;> simp [main, getenv, h]

/-- Witness for C1: a concrete environment with the task variable unset. -/
theorem c1_empty_task_no_agent_run_witness :
    (main (fun _ q => Except.ok q) ⟨none, none⟩).prints = ["❌ No task prompt provided"] ∧
    (main (fun _ q => Except.ok q) ⟨none, none⟩).agent_queries = [] ∧
    (main (fun _ q => Except.ok q) ⟨none, none⟩).result = Except.ok none :=
  c1_empty_task_no_agent_run (fun _ q => Except.ok q) ⟨none, none⟩ (Or.inl rfl)

/-- C2: in every run of the Agent Loop, whenever the model answers a
conversation with a list of ToolCallRequests, the conversation given to the
next model call extends it with exactly one ToolResult per request, in
request order (and the results block has one entry per request, the i-th
result carrying the i-th request's call id). -/
theorem c2_one_tool_result_per_request_in_order
    (model : List Turn → ModelResponse) (invoke : String → String → String)
    (fuel : Nat) (conv : List Turn) :
    List.Chain' (loop_step_rel model invoke) (run_loop model invoke fuel conv).1 ∧
    ∀ calls : List ToolCallRequest,
      (tool_results_for invoke calls).length = calls.length ∧
      ∀ i : Nat,
        (tool_results_for invoke calls)[i]? =
          calls[i]?.map
            (fun c => Turn.toolResult c.call_id (invoke c.tool_name c.arguments)) :=
  ⟨run_loop_chain model invoke fuel conv,
   fun calls =>
     ⟨List.length_map calls _,
      fun i => by simp [tool_results_for, List.getElem?_map]⟩⟩

/-- C3: the boto client configuration built in `run_agent` fixes the retry
ceiling at 3 attempts in adaptive mode, for every environment; under the
spec's model of the transport retry loop that configuration means at most
3 attempts per call, and all-transient attempts exhaust into an error. -/
theorem c3_retry_ceiling_three_adaptive (env : Env) (outcome : Nat → Attempt) :
    (build_agent env).model.boto_client_config.retries =
      { max_attempts := 3, mode := "adaptive" } ∧
    (model_call (build_agent env).model.boto_client_config.retries outcome).1 ≤ 3 ∧
    ((∀ i, outcome i = Attempt.transientFailure) →
      (model_call (build_agent env).model.boto_client_config.retries outcome).2 =
        Except.error "transient failures exhausted") :=
  ⟨rfl, run_attempts_count_le outcome 3 0,
   fun h => run_attempts_all_transient outcome h 3 0⟩

/-- Witness for C3: the always-transient outcome exhausts the 3-attempt
ceiling of the constructed configuration. -/
theorem c3_retry_ceiling_three_adaptive_witness :
    (model_call (build_agent ⟨none, none⟩).model.boto_client_config.retries
        (fun _ => Attempt.transientFailure)).2 =
      Except.error "transient failures exhausted" :=
  (c3_retry_ceiling_three_adaptive ⟨none, none⟩
      (fun _ => Attempt.transientFailure)).2.2 (fun _ => rfl)

/-- C4 counterexample: with an agent invocation that succeeds with value
"done" on task "task", `main` returns None (modelled `Except.ok none`), not
the agent's value — the value `run_agent` returns is discarded at `main`. -/
theorem c4_main_discards_result_counterexample :
    (run_agent (fun _ _ => Except.ok "done") ⟨some "task", none⟩ "task").result =
      Except.ok "done" ∧
    (main (fun _ _ => Except.ok "done") ⟨some "task", none⟩).result = Except.ok none ∧
    (main (fun _ _ => Except.ok "done") ⟨some "task", none⟩).result ≠
      Except.ok (some "done") := by
  refine ⟨rfl, rfl, fun hcontra => ?_⟩
  rw [show (main (fun _ _ => Except.ok "done") ⟨some "task", none⟩).result =
        Except.ok none from rfl] at hcontra
  exact Option.noConfusion (Except.ok.inj hcontra)

/-- C4 amended: after a successful agent run, `run_agent` surfaces the
agent's result by returning it to its caller; `main`, however, discards
`run_agent`'s return value and returns None on success (only errors
propagate through `main`). -/
theorem c4_result_returned_by_run_agent_discarded_by_main
    (agentRun : AgentConstruction → String → Except String String) (env : Env)
    (r : String) (h : getenv env.input_task_prompt "" ≠ "")
    (hr : agentRun (build_agent env) (getenv env.input_task_prompt "") = Except.ok r) :
    (run_agent agentRun env (getenv env.input_task_prompt "")).result = Except.ok r ∧
    (main agentRun env).result = Except.ok none := by
  constructor
  · simp [run_agent, hr]
  · simp [main, if_neg h, run_agent, hr, Except.map]

/-- Witness for the amended C4: a concrete successful run. -/
theorem c4_result_returned_by_run_agent_discarded_by_main_witness :
    (run_agent (fun _ _ => Except.ok "res") ⟨some "t", none⟩
        (getenv (some "t") "")).result = Except.ok "res" ∧
    (main (fun _ _ => Except.ok "res") ⟨some "t", none⟩).result = Except.ok none :=
  c4_result_returned_by_run_agent_discarded_by_main
    (fun _ _ => Except.ok "res") ⟨some "t", none⟩ "res" (by decide) rfl

/-- C5: `run_agent` prints the completion marker and returns the result
when the agent invocation succeeds; when an exception escapes the agent
run it prints the error marker (with the exception text) and re-raises the
same exception. -/
theorem c5_completion_marker_and_reraise
    (agentRun : AgentConstruction → String → Except String String)
    (env : Env) (query : String) :
    (∀ r, agentRun (build_agent env) query = Except.ok r →
        (run_agent agentRun env query).prints =
          ["🤖 Running agent with query: " ++ query.take 100 ++ "...",
           "✅ Agent completed successfully"] ∧
        (run_agent agentRun env query).result = Except.ok r) ∧
    (∀ e, agentRun (build_agent env) query = Except.error e →
        (run_agent agentRun env query).prints =
          ["🤖 Running agent with query: " ++ query.take 100 ++ "...",
           "❌ Error running agent: " ++ e] ∧
        (run_agent agentRun env query).result = Except.error e) := by
  constructor <;> intro x hx <;> simp [run_agent, hx]

/-- Witness for C5: one concrete succeeding and one concrete failing
agent invocation. -/
theorem c5_completion_marker_and_reraise_witness :
    (run_agent (fun _ _ => Except.ok "res") ⟨none, none⟩ "q").result = Except.ok "res" ∧
    (run_agent (fun _ _ => Except.error "boom") ⟨none, none⟩ "q").result =
      Except.error "boom" :=
  ⟨((c5_completion_marker_and_reraise (fun _ _ => Except.ok "res")
      ⟨none, none⟩ "q").1 "res" rfl).2,
   ((c5_completion_marker_and_reraise (fun _ _ => Except.error "boom")
      ⟨none, none⟩ "q").2 "boom" rfl).2⟩

/-- C6: the agent's system prompt is exactly the INPUT_SYSTEM_PROMPT value
when that variable is set, and the default "You are an autonomous GitHub
agent." when it is unset. -/
theorem c6_system_prompt_override (env : Env) :
    (∀ s, env.input_system_prompt = some s → (build_agent env).system_prompt = s) ∧
    (env.input_system_prompt = none →
      (build_agent env).system_prompt = "You are an autonomous GitHub agent.") := by
  constructor
  · intro s hs; simp [build_agent, getenv, hs]
  · intro hn; simp [build_agent, getenv, hn, DEFAULT_SYSTEM_PROMPT]

/-- Witness for C6: a set override and an unset variable. -/
theorem c6_system_prompt_override_witness :
    (build_agent ⟨none, some "custom"⟩).system_prompt = "custom" ∧
    (build_agent ⟨none, none⟩).system_prompt = "You are an autonomous GitHub agent." :=
  ⟨(c6_system_prompt_override ⟨none, some "custom"⟩).1 "custom" rfl,
   (c6_system_prompt_override ⟨none, none⟩).2 rfl⟩

/-- C7: the tool registry is fixed — `_get_all_tools` is the constant
17-element, duplicate-free list in the source order, and every constructed
agent receives exactly it, whatever the environment. -/
theorem c7_tool_registry_fixed_seventeen :
    _get_all_tools.length = 17 ∧
    _get_all_tools.Nodup ∧
    _get_all_tools =
      [ Tool.str_replace_based_edit_tool, Tool.shell, Tool.http_request,
        Tool.create_issue, Tool.get_issue, Tool.update_issue, Tool.list_issues,
        Tool.add_issue_comment, Tool.get_issue_comments, Tool.create_pull_request,
        Tool.get_pull_request, Tool.update_pull_request, Tool.list_pull_requests,
        Tool.get_pr_review_and_comments, Tool.reply_to_review_comment,
        Tool.notebook, Tool.handoff_to_user ] ∧
    ∀ env : Env, (build_agent env).tools = _get_all_tools :=
  ⟨rfl, by decide, rfl, fun _ => rfl⟩

/-- C8: the extended-reasoning budget (8000 tokens) and the beta flag are
attached once as session configuration: the constructed model carries
exactly these additional request fields, and the model configuration is
identical across environments (hence per-run constant, never varied
per call). -/
theorem c8_thinking_budget_and_beta_flag_session_config (env : Env) :
    (build_agent env).model.additional_request_fields =
      { anthropic_beta := ["interleaved-thinking-2025-05-14"],
        thinking := { type := "enabled", budget_tokens := 8000 } } ∧
    ∀ env' : Env, (build_agent env').model = (build_agent env).model :=
  ⟨rfl, fun _ => rfl⟩

/-- C9: the constructed boto client configuration sets both the read and
the connect timeout to 900 seconds, for every environment. -/
theorem c9_timeouts_900 (env : Env) :
    (build_agent env).model.boto_client_config.read_timeout = 900 ∧
    (build_agent env).model.boto_client_config.connect_timeout = 900 :=
  ⟨rfl, rfl⟩

/-- C10: for every non-empty task string (whitespace-only included),
`main` invokes the agent exactly once with the full, unmodified task; the
200- and 100-character truncations appear only in the printed lines. -/
theorem c10_full_task_passed_truncations_only_printed
    (agentRun : AgentConstruction → String → Except String String) (env : Env)
    (h : getenv env.input_task_prompt "" ≠ "") :
    (main agentRun env).agent_queries = [getenv env.input_task_prompt ""] ∧
    ("Task: " ++ (getenv env.input_task_prompt "").take 200 ++ "...") ∈
      (main agentRun env).prints ∧
    ("🤖 Running agent with query: " ++ (getenv env.input_task_prompt "").take 100 ++ "...")
      ∈ (main agentRun env).prints := by
  cases hcall : agentRun (build_agent env) (getenv env.input_task_prompt "") with
  | ok r => refine ⟨?_, ?_, ?_⟩ <;> simp [main, if_neg h, run_agent, hcall]
  | error e => refine ⟨?_, ?_, ?_⟩ <;> simp [main, if_neg h, run_agent, hcall]

/-- Witness for C10: a whitespace-only task, which counts as a task. -/
theorem c10_full_task_passed_truncations_only_printed_witness :
    (main (fun _ _ => Except.ok "res") ⟨some " ", none⟩).agent_queries =
      [getenv (some " ") ""] ∧
    ("Task: " ++ (getenv (some " ") "").take 200 ++ "...") ∈
      (main (fun _ _ => Except.ok "res") ⟨some " ", none⟩).prints ∧
    ("🤖 Running agent with query: " ++ (getenv (some " ") "").take 100 ++ "...")
      ∈ (main (fun _ _ => Except.ok "res") ⟨some " ", none⟩).prints :=
  c10_full_task_passed_truncations_only_printed
    (fun _ _ => Except.ok "res") ⟨some " ", none⟩ (by decide)

end AgentRunner
